import Mathlib

/-!
Shallow embedding of parts of the OpenNN library (testing analysis,
model selection, device, neural-network parameter handling), together
with theorems checking the natural-language specification against it.

The C++ scalar `type` (a floating-point type) is modelled by `ℚ`: every
representable finite double is a rational, and the operations the
embedded functions perform on it (comparisons, counting, sums,
divisions) are exact.  `Index` is modelled by `ℕ` where it is a count.
Two-column data (targets, outputs) is passed to the embedded statistics
functions row by row as a list of (target, output) pairs, which models
reading column 0 of both matrices in lock-step, as the C++ loops do.
-/

namespace OpenNN

/-! ## TestingAnalysis (from src/opennn/testing_analysis.cpp) -/

namespace TestingAnalysis

/-- The four cells of a binary confusion matrix.  The C++ stores them in a
`Tensor<Index, 2>` as confusion(0,0) = true_positive,
confusion(0,1) = false_negative, confusion(1,0) = false_positive,
confusion(1,1) = true_negative. -/
structure Confusion where
  true_positive : ℕ
  false_negative : ℕ
  false_positive : ℕ
  true_negative : ℕ
deriving Repr, DecidableEq

/-- The all-zero confusion matrix (the C++ local counters start at 0). -/
def Confusion.init : Confusion := ⟨0, 0, 0, 0⟩

/-- Sum of the first row of the confusion matrix: confusion(0,0) + confusion(0,1). -/
def Confusion.row0 (c : Confusion) : ℕ := c.true_positive + c.false_negative

/-- Sum of the second row of the confusion matrix: confusion(1,0) + confusion(1,1). -/
def Confusion.row1 (c : Confusion) : ℕ := c.false_positive + c.true_negative

/-- One iteration of the classification loop of
`TestingAnalysis::calculate_confusion_binary_classification`
(testing_analysis.cpp, lines 1436-1492): the if/else-if chain deciding
which counter the instance `(t, o)` = (targets(i,0), outputs(i,0))
increments, given the decision threshold `d`. -/
def classify_instance (d t o : ℚ) (c : Confusion) : Confusion :=
  if d = 0 ∧ t = 0 then
    { c with false_positive := c.false_positive + 1 }
  else if d = 0 ∧ t = 1 then
    { c with true_positive := c.true_positive + 1 }
  else if t ≥ d ∧ o ≥ d then
    { c with true_positive := c.true_positive + 1 }
  else if t ≥ d ∧ o < d then
    { c with false_negative := c.false_negative + 1 }
  else if t < d ∧ o ≥ d then
    { c with false_positive := c.false_positive + 1 }
  else if t < d ∧ o < d then
    { c with true_negative := c.true_negative + 1 }
  else
    c

/-- `TestingAnalysis::calculate_confusion_binary_classification`:
folds the classification loop over the testing rows, starting from
zeroed counters.  `rows` lists the `(targets(i,0), outputs(i,0))` pairs. -/
def calculate_confusion_binary_classification
    (rows : List (ℚ × ℚ)) (decision_threshold : ℚ) : Confusion :=
  rows.foldl (fun c p => classify_instance decision_threshold p.1 p.2 c) Confusion.init

/-- `TestingAnalysis::calculate_positives_negatives_rate`
(testing_analysis.cpp, lines 1529-1538): runs the binary confusion at
decision threshold 0.5 and returns (total positives, total negatives) =
(confusion(0,0)+confusion(0,1), confusion(1,0)+confusion(1,1)). -/
def calculate_positives_negatives_rate (rows : List (ℚ × ℚ)) : ℕ × ℕ :=
  let confusion := calculate_confusion_binary_classification rows (1/2)
  (confusion.row0, confusion.row1)

/-- Error text thrown by `calculate_roc_curve` when there is no positive instance. -/
def roc_no_positives_msg : String :=
  "Number of positive instances must be greater than zero."

/-- Error text thrown by `calculate_roc_curve` when there is no negative instance. -/
def roc_no_negatives_msg : String :=
  "Number of negative instances must be greater than zero."

/-- `TestingAnalysis::calculate_roc_curve` (testing_analysis.cpp, lines
1725-1821).  After the two positive/negative guards the active code
computes `step_size` and `points_number` (which do not influence the
returned value) and, the whole vectorized body being commented out,
returns a default-constructed `Tensor<type, 2>()`, i.e. an empty matrix,
modelled as the empty list of rows. -/
def calculate_roc_curve (rows : List (ℚ × ℚ)) : Except String (List (List ℚ)) :=
  let rate := calculate_positives_negatives_rate rows
  if rate.1 = 0 then .error roc_no_positives_msg
  else if rate.2 = 0 then .error roc_no_negatives_msg
  else .ok []

/-- `TestingAnalysis::calculate_Wilcoxon_parameter` (testing_analysis.cpp):
1 if `x > y`, 0 if `x < y`, 0.5 otherwise. -/
def calculate_Wilcoxon_parameter (x y : ℚ) : ℚ :=
  if x > y then 1 else if x < y then 0 else 1/2

/-- The comparison tolerance `1.0e-99` used by `calculate_area_under_curve`
to recognise targets equal to 1 and to 0. -/
def auc_eps : ℚ := 1 / (10 ^ 99)

/-- `TestingAnalysis::calculate_area_under_curve` (testing_analysis.cpp,
lines 1828-1907): same positive/negative guards as the ROC curve, then
a Wilcoxon double sum over (positive, negative) instance pairs divided
by `total_positives * total_negatives`. -/
def calculate_area_under_curve (rows : List (ℚ × ℚ)) : Except String ℚ :=
  let rate := calculate_positives_negatives_rate rows
  if rate.1 = 0 then .error roc_no_positives_msg
  else if rate.2 = 0 then .error roc_no_negatives_msg
  else
    let sum := (rows.map (fun pi =>
      if |pi.1 - 1| < auc_eps then
        (rows.map (fun pj => if |pj.1| < auc_eps then
            calculate_Wilcoxon_parameter pi.2 pj.2 else 0)).sum
      else 0)).sum
    .ok (sum / ((rate.1 : ℚ) * (rate.2 : ℚ)))

/-- A freshly constructed `Tensor<Index, 2>` of shape rows × cols.  Eigen
does not initialise its entries; the model records the shape and leaves
every entry at a fixed placeholder value 0 — nothing is ever written to
it by the embedded code, which is exactly what the theorems use. -/
structure IndexTensor2 where
  rows_number : ℕ
  columns_number : ℕ
deriving Repr, DecidableEq

/-- `TestingAnalysis::calculate_confusion_multiple_classification`
(testing_analysis.cpp, lines 1499-1518): allocates a
`columns_number × columns_number` confusion tensor; the counting loop is
entirely commented out, so the tensor is returned with no instance
counted.  `targets` and `outputs` are the two testing matrices. -/
def calculate_confusion_multiple_classification
    (targets outputs : List (List ℚ)) : IndexTensor2 :=
  let columns_number := (targets.headD []).length
  ⟨columns_number, columns_number⟩

/-- `TestingAnalysis::calculate_testing_weighted_squared_error`
(testing_analysis.cpp, lines 1353-1428).  The active code selects the
positive/negative weights (from `weights` when it has size 2, otherwise
from the data set's target distribution, with C++ integer division
`negatives_number / positives_number`, modelled by `Nat` division);
the error-accumulation loop and the final normalised quotient are
commented out, and the function returns `0.0` unconditionally. -/
def calculate_testing_weighted_squared_error
    (targets outputs weights : List ℚ) (target_distribution : List ℕ) : ℚ :=
  let wpair : ℚ × ℚ :=
    if weights.length ≠ 2 then
      let negatives_number := target_distribution.headD 0
      let positives_number := (target_distribution.drop 1).headD 0
      (((negatives_number / positives_number : ℕ) : ℚ), 1)
    else
      (weights.headD 0, (weights.drop 1).headD 0)
  let _ := wpair
  let _ := targets
  let _ := outputs
  0

end TestingAnalysis

/-! ## XML trees (model of tinyxml2 documents used by ModelSelection) -/

/-- An XML node: an element with a tag, attributes and child nodes, or a
text node.  `tinyxml2::XMLDocument` is modelled as the list of its
top-level nodes. -/
inductive XML where
  | elem (tag : String) (attrs : List (String × String)) (children : List XML)
  | text (content : String)

/-- Whether a node is an element with the given tag. -/
def XML.isElemTagged (tag : String) : XML → Bool
  | .elem t _ _ => t == tag
  | .text _ => false

/-- `FirstChildElement(tag)`: the first element child with the given tag. -/
def firstChildElement (tag : String) (nodes : List XML) : Option XML :=
  nodes.find? (XML.isElemTagged tag)

/-- `Attribute(name)`: the value of the named attribute, when present. -/
def XML.attrValue (name : String) : XML → Option String
  | .elem _ attrs _ => (attrs.find? (fun a => a.1 == name)).map Prod.snd
  | .text _ => none

/-- The child nodes of an element (a text node has none). -/
def XML.children : XML → List XML
  | .elem _ _ c => c
  | .text _ => []

/-- The tag of an element node (empty for a text node). -/
def XML.tag : XML → String
  | .elem t _ _ => t
  | .text _ => ""

/-! ## ModelSelection (from src/opennn/model_selection.cpp) -/

namespace ModelSelection

/-- `ModelSelection::InputsSelectionMethod`. -/
inductive InputsSelectionMethod where
  | NO_INPUTS_SELECTION
  | GROWING_INPUTS
  | PRUNING_INPUTS
  | GENETIC_ALGORITHM
deriving Repr, DecidableEq

/-- `ModelSelection::NeuronsSelectionMethod`. -/
inductive NeuronsSelectionMethod where
  | NO_NEURONS_SELECTION
  | INCREMENTAL_NEURONS
deriving Repr, DecidableEq

/-- Modelled from the spec: the `NeuralNetwork` collaborator, of which
`ModelSelection::check` only reads `is_empty()` (spec §4.6: "network
non-empty"); its implementation is not under src/. -/
structure NeuralNetworkRef where
  is_empty : Bool
deriving Repr, DecidableEq

/-- Modelled from the spec: the `DataSet` collaborator, of which
`ModelSelection::check` only reads the partition sizes (spec §3: the
data set "produces three disjoint index sets (training, selection,
testing)"); its implementation is not under src/. -/
structure DataSetRef where
  training_instances_number : ℕ
  selection_instances_number : ℕ
deriving Repr, DecidableEq

/-- Modelled from the spec: the `LossIndex` collaborator "holds references
to a network and a data set" (spec §3); its implementation is not under
src/. -/
structure LossIndexRef where
  neural_network_pointer : Option NeuralNetworkRef
  data_set_pointer : Option DataSetRef
deriving Repr, DecidableEq

/-- Modelled from the spec: the `TrainingStrategy` collaborator, of which
model selection reads the loss index back-pointer (spec §4.6, §9
"back-references"); its implementation is not under src/. -/
structure TrainingStrategyRef where
  loss_index_pointer : Option LossIndexRef
deriving Repr, DecidableEq

/-- Modelled from the spec: an inputs/neurons-selection sub-algorithm
(GrowingInputs, PruningInputs, GeneticAlgorithm, IncrementalNeurons),
whose implementation is not under src/.  Its configuration is an opaque
value of type `α` with a default (the default-constructed object), an
XML encoding of its nested elements, and the spec §6 guarantee that
opaque child-component blocks "round-trip exactly". -/
structure AlgoXML (α : Type) where
  dflt : α
  enc : α → List XML
  dec : List XML → α
  dec_enc : ∀ a, dec (enc a) = a

/-- The state of a `ModelSelection` object: the training-strategy
back-pointer, the two method tags, and the four owned sub-algorithm
pointers.  An owned pointer is modelled as `Option (ℕ × config)`: the
`ℕ` is the allocation identifier of the heap object (`next_alloc` is the
next unused identifier, so a fresh `new` yields an identifier no earlier
pointer can hold), the config its opaque configuration. -/
structure State (G P A I : Type) where
  training_strategy_pointer : Option TrainingStrategyRef
  inputs_selection_method : InputsSelectionMethod
  neurons_selection_method : NeuronsSelectionMethod
  growing_inputs_pointer : Option (ℕ × G)
  pruning_inputs_pointer : Option (ℕ × P)
  genetic_algorithm_pointer : Option (ℕ × A)
  incremental_neurons_pointer : Option (ℕ × I)
  next_alloc : ℕ

variable {G P A I : Type}

/-- `ModelSelection::destruct_inputs_selection` (model_selection.cpp):
deletes the three inputs-selection pointers and resets the method tag. -/
def destruct_inputs_selection (s : State G P A I) : State G P A I :=
  { s with growing_inputs_pointer := none,
           pruning_inputs_pointer := none,
           genetic_algorithm_pointer := none,
           inputs_selection_method := .NO_INPUTS_SELECTION }

/-- `ModelSelection::destruct_neurons_selection` (model_selection.cpp,
lines 482-489): deletes the incremental-neurons pointer and resets the
method tag. -/
def destruct_neurons_selection (s : State G P A I) : State G P A I :=
  { s with incremental_neurons_pointer := none,
           neurons_selection_method := .NO_NEURONS_SELECTION }

/-- `ModelSelection::set_inputs_selection_method(InputsSelectionMethod)`
(model_selection.cpp, lines 309-357).  The GROWING_INPUTS case allocates
a fresh GrowingInputs *and* a fresh IncrementalNeurons (overwriting
`incremental_neurons_pointer` without touching
`neurons_selection_method`); the other cases allocate only their own
algorithm.  The C++ chooses between the nullary and the
training-strategy constructor of each child and conditionally wires the
training strategy into it; both leave the child default-configured, and
that wiring is internal to the opaque child, so the model records a
fresh default-configured allocation either way. -/
def set_inputs_selection_method (gio : AlgoXML G) (pio : AlgoXML P) (aio : AlgoXML A)
    (iio : AlgoXML I) (s : State G P A I) (m : InputsSelectionMethod) : State G P A I :=
  let s1 := { destruct_inputs_selection s with inputs_selection_method := m }
  match m with
  | .NO_INPUTS_SELECTION => s1
  | .GROWING_INPUTS =>
      { s1 with growing_inputs_pointer := some (s.next_alloc, gio.dflt),
                incremental_neurons_pointer := some (s.next_alloc + 1, iio.dflt),
                next_alloc := s.next_alloc + 2 }
  | .PRUNING_INPUTS =>
      { s1 with pruning_inputs_pointer := some (s.next_alloc, pio.dflt),
                next_alloc := s.next_alloc + 1 }
  | .GENETIC_ALGORITHM =>
      { s1 with genetic_algorithm_pointer := some (s.next_alloc, aio.dflt),
                next_alloc := s.next_alloc + 1 }

/-- `ModelSelection::set_neurons_selection_method(NeuronsSelectionMethod)`
(model_selection.cpp): destructs the current neurons selection, sets the
tag, and for INCREMENTAL_NEURONS allocates a fresh IncrementalNeurons. -/
def set_neurons_selection_method (iio : AlgoXML I) (s : State G P A I)
    (m : NeuronsSelectionMethod) : State G P A I :=
  let s1 := { destruct_neurons_selection s with neurons_selection_method := m }
  match m with
  | .NO_NEURONS_SELECTION => s1
  | .INCREMENTAL_NEURONS =>
      { s1 with incremental_neurons_pointer := some (s.next_alloc, iio.dflt),
                next_alloc := s.next_alloc + 1 }

/-- `ModelSelection::set_inputs_selection_method(const string&)`
(model_selection.cpp): dispatches on the four method names, throwing on
an unknown one. -/
def set_inputs_selection_method_from_string (gio : AlgoXML G) (pio : AlgoXML P)
    (aio : AlgoXML A) (iio : AlgoXML I) (s : State G P A I) (name : String) :
    Except String (State G P A I) :=
  if name = "NO_INPUTS_SELECTION" then
    .ok (set_inputs_selection_method gio pio aio iio s .NO_INPUTS_SELECTION)
  else if name = "GROWING_INPUTS" then
    .ok (set_inputs_selection_method gio pio aio iio s .GROWING_INPUTS)
  else if name = "PRUNING_INPUTS" then
    .ok (set_inputs_selection_method gio pio aio iio s .PRUNING_INPUTS)
  else if name = "GENETIC_ALGORITHM" then
    .ok (set_inputs_selection_method gio pio aio iio s .GENETIC_ALGORITHM)
  else
    .error ("Unknown inputs selection type: " ++ name)

/-- `ModelSelection::set_neurons_selection_method(const string&)`
(model_selection.cpp): dispatches on the two method names, throwing on
an unknown one. -/
def set_neurons_selection_method_from_string (iio : AlgoXML I) (s : State G P A I)
    (name : String) : Except String (State G P A I) :=
  if name = "NO_NEURONS_SELECTION" then
    .ok (set_neurons_selection_method iio s .NO_NEURONS_SELECTION)
  else if name = "INCREMENTAL_NEURONS" then
    .ok (set_neurons_selection_method iio s .INCREMENTAL_NEURONS)
  else
    .error ("Unknown order selection type: " ++ name)

/-- `ModelSelection::check` (model_selection.cpp, lines 510-586): the
validation chain, in source order.  The method is `const`: it only reads
the wired components.  Note that it checks
`get_selection_instances_number() == 0` but never the training
partition. -/
def check (s : State G P A I) : Except String Unit :=
  match s.training_strategy_pointer with
  | none => .error "Pointer to training strategy is nullptr."
  | some ts =>
    match ts.loss_index_pointer with
    | none => .error "Pointer to loss index is nullptr."
    | some li =>
      match li.neural_network_pointer with
      | none => .error "Pointer to neural network is nullptr."
      | some nn =>
        if nn.is_empty then .error "Multilayer Perceptron is empty."
        else
          match li.data_set_pointer with
          | none => .error "Pointer to data set is nullptr."
          | some ds =>
            if ds.selection_instances_number = 0 then
              .error "Number of selection instances is zero."
            else .ok ()

/-- The `Type` attribute string written for each inputs-selection method. -/
def inputs_selection_type_string : InputsSelectionMethod → String
  | .NO_INPUTS_SELECTION => "NO_INPUTS_SELECTION"
  | .GROWING_INPUTS => "GROWING_INPUTS"
  | .PRUNING_INPUTS => "PRUNING_INPUTS"
  | .GENETIC_ALGORITHM => "GENETIC_ALGORITHM"

/-- The `Type` attribute string written for each neurons-selection method. -/
def neurons_selection_type_string : NeuronsSelectionMethod → String
  | .NO_NEURONS_SELECTION => "NO_NEURONS_SELECTION"
  | .INCREMENTAL_NEURONS => "INCREMENTAL_NEURONS"

/-- `ModelSelection::to_XML` (model_selection.cpp, lines 673-798): builds a
document whose root element is `ModelSelection`, containing an
`InputsSelection` element with a `Type` attribute (its children cloned
from the active inputs algorithm's own document, none for
NO_INPUTS_SELECTION) and a `NeuronsSelection` element built the same
way.  When a case dereferences an algorithm pointer that is null the
C++ crashes; the model returns `none` there. -/
def to_XML (gio : AlgoXML G) (pio : AlgoXML P) (aio : AlgoXML A) (iio : AlgoXML I)
    (s : State G P A I) : Option XML := do
  let inputs_children ←
    match s.inputs_selection_method with
    | .NO_INPUTS_SELECTION => some []
    | .GROWING_INPUTS => s.growing_inputs_pointer.map (fun p => gio.enc p.2)
    | .PRUNING_INPUTS => s.pruning_inputs_pointer.map (fun p => pio.enc p.2)
    | .GENETIC_ALGORITHM => s.genetic_algorithm_pointer.map (fun p => aio.enc p.2)
  let neurons_children ←
    match s.neurons_selection_method with
    | .NO_NEURONS_SELECTION => some []
    | .INCREMENTAL_NEURONS => s.incremental_neurons_pointer.map (fun p => iio.enc p.2)
  some (XML.elem "ModelSelection" []
    [ XML.elem "InputsSelection"
        [("Type", inputs_selection_type_string s.inputs_selection_method)]
        inputs_children,
      XML.elem "NeuronsSelection"
        [("Type", neurons_selection_type_string s.neurons_selection_method)]
        neurons_children ])

/-- Replace the configuration stored behind the growing-inputs pointer
(`growing_inputs_pointer->from_XML(...)` mutates the pointee). -/
def update_growing_config (s : State G P A I) (g : G) : State G P A I :=
  { s with growing_inputs_pointer := s.growing_inputs_pointer.map (fun p => (p.1, g)) }

/-- Replace the configuration stored behind the pruning-inputs pointer. -/
def update_pruning_config (s : State G P A I) (p : P) : State G P A I :=
  { s with pruning_inputs_pointer := s.pruning_inputs_pointer.map (fun q => (q.1, p)) }

/-- Replace the configuration stored behind the genetic-algorithm pointer. -/
def update_genetic_config (s : State G P A I) (a : A) : State G P A I :=
  { s with genetic_algorithm_pointer := s.genetic_algorithm_pointer.map (fun q => (q.1, a)) }

/-- Replace the configuration stored behind the incremental-neurons pointer. -/
def update_incremental_config (s : State G P A I) (i : I) : State G P A I :=
  { s with incremental_neurons_pointer := s.incremental_neurons_pointer.map (fun q => (q.1, i)) }

/-- `ModelSelection::from_XML` (model_selection.cpp, lines 893-1017): looks
up the `ModelSelection` root (throwing when absent), then for each of
the `InputsSelection` and `NeuronsSelection` children (skipped when
absent) reads the `Type` attribute, installs the method through the
string setter, and feeds the element's children — rewrapped under the
algorithm's own root tag — to the freshly installed algorithm's
`from_XML`.  A missing `Type` attribute is a null `const char*` in the
C++ (undefined string construction); the model reads it as `""`, which
the string setter rejects. -/
def from_XML (gio : AlgoXML G) (pio : AlgoXML P) (aio : AlgoXML A) (iio : AlgoXML I)
    (doc : List XML) (s : State G P A I) : Except String (State G P A I) := do
  match firstChildElement "ModelSelection" doc with
  | none => .error "Model Selection element is nullptr."
  | some root => do
    let s1 ←
      match firstChildElement "InputsSelection" root.children with
      | none => pure s
      | some el => do
        let s' ← set_inputs_selection_method_from_string gio pio aio iio s
          ((el.attrValue "Type").getD "")
        match s'.inputs_selection_method with
        | .NO_INPUTS_SELECTION => pure s'
        | .GROWING_INPUTS => pure (update_growing_config s' (gio.dec el.children))
        | .PRUNING_INPUTS => pure (update_pruning_config s' (pio.dec el.children))
        | .GENETIC_ALGORITHM => pure (update_genetic_config s' (aio.dec el.children))
    match firstChildElement "NeuronsSelection" root.children with
    | none => pure s1
    | some el => do
      let s2 ← set_neurons_selection_method_from_string iio s1
        ((el.attrValue "Type").getD "")
      match s2.neurons_selection_method with
      | .NO_NEURONS_SELECTION => pure s2
      | .INCREMENTAL_NEURONS => pure (update_incremental_config s2 (iio.dec el.children))

/-- The configuration of the growing-inputs algorithm, when allocated. -/
def growing_config (s : State G P A I) : Option G :=
  s.growing_inputs_pointer.map Prod.snd

/-- The configuration of the pruning-inputs algorithm, when allocated. -/
def pruning_config (s : State G P A I) : Option P :=
  s.pruning_inputs_pointer.map Prod.snd

/-- The configuration of the genetic algorithm, when allocated. -/
def genetic_config (s : State G P A I) : Option A :=
  s.genetic_algorithm_pointer.map Prod.snd

/-- The configuration of the incremental-neurons algorithm, when allocated. -/
def incremental_config (s : State G P A I) : Option I :=
  s.incremental_neurons_pointer.map Prod.snd

/-- Serialization well-formedness: the algorithm selected by each method
tag has actually been allocated (otherwise `to_XML` dereferences null). -/
def xml_wf (s : State G P A I) : Bool :=
  (match s.inputs_selection_method with
   | .NO_INPUTS_SELECTION => true
   | .GROWING_INPUTS => s.growing_inputs_pointer.isSome
   | .PRUNING_INPUTS => s.pruning_inputs_pointer.isSome
   | .GENETIC_ALGORITHM => s.genetic_algorithm_pointer.isSome)
  && (match s.neurons_selection_method with
      | .NO_NEURONS_SELECTION => true
      | .INCREMENTAL_NEURONS => s.incremental_neurons_pointer.isSome)

/-- Heap well-formedness: every live pointer was allocated before
`next_alloc` (true of every state reachable from a constructor, where
each `new` consumes the next identifier). -/
def alloc_wf (s : State G P A I) : Bool :=
  s.growing_inputs_pointer.all (fun p => p.1 < s.next_alloc)
  && s.pruning_inputs_pointer.all (fun p => p.1 < s.next_alloc)
  && s.genetic_algorithm_pointer.all (fun p => p.1 < s.next_alloc)
  && s.incremental_neurons_pointer.all (fun p => p.1 < s.next_alloc)

/-- The nested configuration of the inputs-selection algorithm selected by
the current method tag (none when no inputs selection is active or the
selected algorithm is unallocated). -/
def active_inputs_config (s : State G P A I) : Option (G ⊕ P ⊕ A) :=
  match s.inputs_selection_method with
  | .NO_INPUTS_SELECTION => none
  | .GROWING_INPUTS => (growing_config s).map Sum.inl
  | .PRUNING_INPUTS => (pruning_config s).map (fun p => Sum.inr (Sum.inl p))
  | .GENETIC_ALGORITHM => (genetic_config s).map (fun a => Sum.inr (Sum.inr a))

/-- The nested configuration of the neurons-selection algorithm selected
by the current method tag. -/
def active_neurons_config (s : State G P A I) : Option I :=
  match s.neurons_selection_method with
  | .NO_NEURONS_SELECTION => none
  | .INCREMENTAL_NEURONS => incremental_config s

/-- `training_strategy_pointer->get_loss_index_pointer()`, as read by
`check`. -/
def loss_index_of (s : State G P A I) : Option LossIndexRef :=
  s.training_strategy_pointer.bind TrainingStrategyRef.loss_index_pointer

/-- `loss_index_pointer->get_neural_network_pointer()`, as read by `check`. -/
def neural_network_of (s : State G P A I) : Option NeuralNetworkRef :=
  (loss_index_of s).bind LossIndexRef.neural_network_pointer

/-- `loss_index_pointer->get_data_set_pointer()`, as read by `check`. -/
def data_set_of (s : State G P A I) : Option DataSetRef :=
  (loss_index_of s).bind LossIndexRef.data_set_pointer

/-- The claim under test for `ModelSelection::check`: it throws exactly
when a component of the chain is unbound, the network is empty, or the
data set lacks a training or selection partition. -/
def check_claim : Prop :=
  ∀ (G P A I : Type) (s : State G P A I),
    (∃ msg, check s = Except.error msg) ↔
      (s.training_strategy_pointer = none ∨
       loss_index_of s = none ∨
       neural_network_of s = none ∨
       (∃ nn, neural_network_of s = some nn ∧ nn.is_empty = true) ∨
       data_set_of s = none ∨
       (∃ ds, data_set_of s = some ds ∧ ds.training_instances_number = 0) ∨
       (∃ ds, data_set_of s = some ds ∧ ds.selection_instances_number = 0))

/-- A fully wired model selection whose data set has an empty training
partition but a non-empty selection partition. -/
def no_training_state : State Unit Unit Unit Unit :=
  ⟨some ⟨some ⟨some ⟨false⟩, some ⟨0, 1⟩⟩⟩, .NO_INPUTS_SELECTION, .NO_NEURONS_SELECTION,
   none, none, none, none, 0⟩

/-- The trivial sub-algorithm bundle over a unit configuration, used to
instantiate the parametric theorems at a concrete input. -/
def unit_algo : AlgoXML Unit := ⟨(), fun _ => [], fun _ => (), fun _ => rfl⟩

/-- A state with incremental-neurons selection active and its algorithm
allocated, for exercising `set_inputs_selection_method` concretely. -/
def incremental_active_state : State Unit Unit Unit Unit :=
  ⟨none, .NO_INPUTS_SELECTION, .INCREMENTAL_NEURONS,
   none, none, none, some (0, ()), 1⟩

/-- A state with growing-inputs and incremental-neurons selection active
and both algorithms allocated, for exercising the XML round trip
concretely. -/
def growing_active_state : State Unit Unit Unit Unit :=
  ⟨none, .GROWING_INPUTS, .INCREMENTAL_NEURONS,
   some (0, ()), none, none, some (1, ()), 2⟩

end ModelSelection

/-! ## Device (from src/opennn/device.h) -/

/-- `Device::Type`. -/
inductive DeviceType where
  | EigenDefault
  | EigenThreadPool
deriving Repr, DecidableEq

/-- The state of a `Device` (device.h, lines 18-86).  The four raw
pointers are modelled as `Option`s; the two thread-pool pointers carry
the thread count the pool was built with.  Member initialisers:
`type = EigenThreadPool`, every pointer null. -/
structure Device where
  type : DeviceType
  default_device : Option Unit
  simple_thread_pool : Option ℕ
  thread_pool_device : Option ℕ
deriving Repr, DecidableEq

/-- `Device::Device()`: the explicit default constructor has an empty body,
so the members keep their initialisers and no pool is allocated. -/
def Device.default_constructed : Device :=
  ⟨.EigenThreadPool, none, none, none⟩

/-- `Device::set_type` (device.h, lines 35-62): stores the type, then for
`EigenDefault` allocates a `DefaultDevice` and for `EigenThreadPool`
allocates a `NonBlockingThreadPool` with `omp_get_max_threads()` threads
and a `ThreadPoolDevice` over it.  The thread count returned by
`omp_get_max_threads()` is an environment value, passed in as
`omp_max_threads`. -/
def Device.set_type (d : Device) (omp_max_threads : ℕ) (new_type : DeviceType) : Device :=
  match new_type with
  | .EigenDefault =>
      { d with type := new_type, default_device := some () }
  | .EigenThreadPool =>
      { d with type := new_type,
               simple_thread_pool := some omp_max_threads,
               thread_pool_device := some omp_max_threads }

/-- `Device::Device(const Type&)`: calls `set_type` on the default state. -/
def Device.type_constructed (omp_max_threads : ℕ) (new_type : DeviceType) : Device :=
  Device.default_constructed.set_type omp_max_threads new_type

/-! ## NeuralNetwork parameter handling

Modelled from the spec: the `NeuralNetwork` and layer implementations are
not under src/ (only src/tests/neural_network_test.cpp is).  The model
follows spec §3/§4.2/§4.3 — layers are a tagged variant; Scaling,
Unscaling and Bounding own no trainable parameters; a Perceptron owns
`synaptic_weights` [n_in, n_out] and `biases` [n_out]; the network
exposes a flat parameter vector concatenating the trainable layers'
blocks in layer order — and the expectations of
neural_network_test.cpp, which fix the per-layer block order as
synaptic weights first, then biases
(`test_get_trainable_layers_parameters`), and the layer stacks produced
by the model-type constructor (`test_constructor`). -/

/-- `Layer::Type` (the kinds the model-type constructor produces). -/
inductive LayerType where
  | Scaling
  | Perceptron
  | Probabilistic
  | LongShortTermMemory
  | Unscaling
  | Bounding
deriving Repr, DecidableEq

/-- A layer as a tagged variant carrying its parameter blocks.  Values of
type `ℚ` model the stored scalars; an LSTM's parameter block is kept
opaque as a single list (its internal layout is never needed here). -/
inductive Layer where
  | scaling (neurons_number : ℕ)
  | perceptron (inputs_number neurons_number : ℕ) (synaptic_weights biases : List ℚ)
  | probabilistic (inputs_number neurons_number : ℕ) (synaptic_weights biases : List ℚ)
  | long_short_term_memory (inputs_number neurons_number : ℕ) (parameters : List ℚ)
  | unscaling (neurons_number : ℕ)
  | bounding (neurons_number : ℕ)
deriving Repr, DecidableEq

/-- `Layer::get_type`. -/
def Layer.get_type : Layer → LayerType
  | .scaling _ => .Scaling
  | .perceptron _ _ _ _ => .Perceptron
  | .probabilistic _ _ _ _ => .Probabilistic
  | .long_short_term_memory _ _ _ => .LongShortTermMemory
  | .unscaling _ => .Unscaling
  | .bounding _ => .Bounding

/-- Whether the layer is trainable (owns parameters): Scaling, Unscaling
and Bounding own none (spec §4.2). -/
def Layer.is_trainable : Layer → Bool
  | .scaling _ => false
  | .unscaling _ => false
  | .bounding _ => false
  | _ => true

/-- `Layer::get_parameters_number`: "a layer's parameter count is a pure
function of its shape" (spec §3); for a perceptron-like layer it is
`inputs · neurons + neurons`. -/
def Layer.get_parameters_number : Layer → ℕ
  | .perceptron i n _ _ => i * n + n
  | .probabilistic i n _ _ => i * n + n
  | .long_short_term_memory _ _ ps => ps.length
  | _ => 0

/-- `pack_parameters` of one layer: its flat block, synaptic weights first,
then biases (order fixed by `test_get_trainable_layers_parameters`). -/
def Layer.get_parameters : Layer → List ℚ
  | .perceptron _ _ w b => w ++ b
  | .probabilistic _ _ w b => w ++ b
  | .long_short_term_memory _ _ ps => ps
  | _ => []

/-- `unpack_parameters` of one layer: reads its block back from the front
of `v` (weights first, then biases). -/
def Layer.set_parameters (l : Layer) (v : List ℚ) : Layer :=
  match l with
  | .perceptron i n _ _ =>
      .perceptron i n (v.take (i * n)) ((v.drop (i * n)).take n)
  | .probabilistic i n _ _ =>
      .probabilistic i n (v.take (i * n)) ((v.drop (i * n)).take n)
  | .long_short_term_memory i n ps =>
      .long_short_term_memory i n (v.take ps.length)
  | l => l

/-- Shape well-formedness of a layer's stored blocks: the weight and bias
lists have the lengths the shape dictates. -/
def Layer.wf : Layer → Bool
  | .perceptron i n w b => w.length == i * n && b.length == n
  | .probabilistic i n w b => w.length == i * n && b.length == n
  | _ => true

/-- An ordered sequence of layers (spec §3). -/
structure NeuralNetwork where
  layers : List Layer
deriving Repr, DecidableEq

/-- `NeuralNetwork::is_empty`. -/
def NeuralNetwork.is_empty (nn : NeuralNetwork) : Bool := nn.layers.isEmpty

/-- `NeuralNetwork::get_layers_number`. -/
def NeuralNetwork.get_layers_number (nn : NeuralNetwork) : ℕ := nn.layers.length

/-- `NeuralNetwork::get_trainable_layers`. -/
def NeuralNetwork.get_trainable_layers (nn : NeuralNetwork) : List Layer :=
  nn.layers.filter Layer.is_trainable

/-- `NeuralNetwork::get_parameters_number`: the sum of the trainable
layers' parameter counts. -/
def NeuralNetwork.get_parameters_number (nn : NeuralNetwork) : ℕ :=
  (nn.get_trainable_layers.map Layer.get_parameters_number).sum

/-- The flat parameter vector of a layer list: each trainable layer
appends its block at the running offset, in layer order. -/
def params_of_layers : List Layer → List ℚ
  | [] => []
  | l :: ls => (if l.is_trainable then l.get_parameters else []) ++ params_of_layers ls

/-- `NeuralNetwork::get_parameters`: the flat parameter vector. -/
def NeuralNetwork.get_parameters (nn : NeuralNetwork) : List ℚ :=
  params_of_layers nn.layers

/-- Distribute a flat vector over a layer list: each trainable layer takes
the next `get_parameters_number` scalars. -/
def set_params_of_layers : List Layer → List ℚ → List Layer
  | [], _ => []
  | l :: ls, v =>
      if l.is_trainable then
        l.set_parameters (v.take l.get_parameters_number)
          :: set_params_of_layers ls (v.drop l.get_parameters_number)
      else
        l :: set_params_of_layers ls v

/-- `NeuralNetwork::set_parameters`: unpack a flat vector into the
trainable layers, in layer order. -/
def NeuralNetwork.set_parameters (nn : NeuralNetwork) (v : List ℚ) : NeuralNetwork :=
  ⟨set_params_of_layers nn.layers v⟩

/-- Shape well-formedness of a network: every layer's stored blocks match
its shape. -/
def NeuralNetwork.wf (nn : NeuralNetwork) : Bool := nn.layers.all Layer.wf

/-- `NeuralNetwork::ProjectType` (the model-type tag). -/
inductive ProjectType where
  | Approximation
  | Classification
  | Forecasting
  | ImageApproximation
  | ImageClassification
deriving Repr, DecidableEq

/-- Zero-filled block of the given length.  The C++ constructor draws
random initial values; only the block sizes matter here. -/
def zeros (n : ℕ) : List ℚ := List.replicate n 0

/-- A default-constructed `PerceptronLayer(inputs, neurons)`. -/
def mk_perceptron (inputs neurons : ℕ) : Layer :=
  .perceptron inputs neurons (zeros (inputs * neurons)) (zeros neurons)

/-- A default-constructed `ProbabilisticLayer(inputs, neurons)`. -/
def mk_probabilistic (inputs neurons : ℕ) : Layer :=
  .probabilistic inputs neurons (zeros (inputs * neurons)) (zeros neurons)

/-- One perceptron layer per consecutive architecture pair. -/
def perceptron_chain : List ℕ → List Layer
  | a :: b :: rest => mk_perceptron a b :: perceptron_chain (b :: rest)
  | _ => []

/-- Perceptron layers for every consecutive pair but the last, which
becomes the probabilistic output layer. -/
def classification_chain : List ℕ → List Layer
  | [a, b] => [mk_probabilistic a b]
  | a :: b :: rest => mk_perceptron a b :: classification_chain (b :: rest)
  | _ => []

/-- `NeuralNetwork::NeuralNetwork(ProjectType, architecture)`: the
convenience constructor's layer stacks, as fixed by
`NeuralNetworkTest::test_constructor` (neural_network_test.cpp, lines
21-70): Approximation = Scaling, Perceptron per pair, Unscaling,
Bounding; Classification = Scaling, Perceptron per inner pair,
Probabilistic; Forecasting = Scaling, LongShortTermMemory, Perceptron
per later pair, Unscaling; the image types install only Scaling. -/
def NeuralNetwork.from_model_type (t : ProjectType) (architecture : List ℕ) : NeuralNetwork :=
  match architecture with
  | [] => ⟨[]⟩
  | a :: rest =>
    match t with
    | .Approximation =>
        ⟨Layer.scaling a :: (perceptron_chain (a :: rest)
          ++ [Layer.unscaling ((a :: rest).getLastD 0),
              Layer.bounding ((a :: rest).getLastD 0)])⟩
    | .Classification =>
        ⟨Layer.scaling a :: classification_chain (a :: rest)⟩
    | .Forecasting =>
        match rest with
        | [] => ⟨[Layer.scaling a]⟩
        | b :: rest2 =>
            ⟨Layer.scaling a :: Layer.long_short_term_memory a b []
              :: (perceptron_chain (b :: rest2)
                  ++ [Layer.unscaling ((b :: rest2).getLastD 0)])⟩
    | .ImageApproximation => ⟨[Layer.scaling a]⟩
    | .ImageClassification => ⟨[Layer.scaling a]⟩

/-- The claim under test for the binary confusion matrix: with targets in
{0, 1}, its rows sum to the class counts for *any* decision threshold. -/
def confusion_rows_claim : Prop :=
  ∀ (rows : List (ℚ × ℚ)) (decision_threshold : ℚ),
    (∀ p ∈ rows, p.1 = 0 ∨ p.1 = 1) →
    ((TestingAnalysis.calculate_confusion_binary_classification rows decision_threshold).row0 =
        rows.countP (fun p => decide (p.1 = 1)) ∧
     (TestingAnalysis.calculate_confusion_binary_classification rows decision_threshold).row1 =
        rows.countP (fun p => decide (p.1 = 0)))

/-! ## Theorems -/

/-- For a positive threshold the classification step charges row 0 exactly
when the target clears the threshold, and row 1 otherwise. -/
theorem classify_rows_pos (d : ℚ) (hd : 0 < d) (t o : ℚ) (c : TestingAnalysis.Confusion) :
    ((TestingAnalysis.classify_instance d t o c).row0 =
        c.row0 + (if d ≤ t then 1 else 0)) ∧
    ((TestingAnalysis.classify_instance d t o c).row1 =
        c.row1 + (if t < d then 1 else 0)) := by
  unfold TestingAnalysis.classify_instance
  have hd0 : ¬ (d = 0 ∧ t = 0) := fun h => absurd h.1 (ne_of_gt hd)
  have hd1 : ¬ (d = 0 ∧ t = 1) := fun h => absurd h.1 (ne_of_gt hd)
  rw [if_neg hd0, if_neg hd1]
  rcases le_or_lt d t with ht | ht
  · rcases le_or_lt d o with ho | ho
    · rw [if_pos ⟨ht, ho⟩]
      simp [TestingAnalysis.Confusion.row0, TestingAnalysis.Confusion.row1,
        if_pos ht, if_neg (not_lt.mpr ht)]
      omega
    · rw [if_neg (fun h => absurd h.2 (not_le.mpr ho)), if_pos ⟨ht, ho⟩]
      simp [TestingAnalysis.Confusion.row0, TestingAnalysis.Confusion.row1,
        if_pos ht, if_neg (not_lt.mpr ht)]
      omega
  · have hnt : ¬ t ≥ d := not_le.mpr ht
    rcases le_or_lt d o with ho | ho
    · rw [if_neg (fun h => absurd h.1 hnt), if_neg (fun h => absurd h.1 hnt),
        if_pos ⟨ht, ho⟩]
      simp [TestingAnalysis.Confusion.row0, TestingAnalysis.Confusion.row1,
        if_neg (not_le.mpr ht), if_pos ht]
      omega
    · rw [if_neg (fun h => absurd h.1 hnt), if_neg (fun h => absurd h.1 hnt),
        if_neg (fun h => absurd h.2 (not_le.mpr ho)), if_pos ⟨ht, ho⟩]
      simp [TestingAnalysis.Confusion.row0, TestingAnalysis.Confusion.row1,
        if_neg (not_le.mpr ht), if_pos ht]
      omega

/-- Folding the classification loop at a positive threshold counts, on top
of the starting counters, the targets at or above the threshold in row 0
and the rest in row 1. -/
theorem confusion_fold_pos (d : ℚ) (hd : 0 < d) :
    ∀ (rows : List (ℚ × ℚ)) (c : TestingAnalysis.Confusion),
      ((rows.foldl (fun c p => TestingAnalysis.classify_instance d p.1 p.2 c) c).row0 =
          c.row0 + rows.countP (fun p => decide (d ≤ p.1))) ∧
      ((rows.foldl (fun c p => TestingAnalysis.classify_instance d p.1 p.2 c) c).row1 =
          c.row1 + rows.countP (fun p => decide (p.1 < d)))
  | [], c => by simp
  | p :: rows, c => by
      have step := classify_rows_pos d hd p.1 p.2 c
      have ih := confusion_fold_pos d hd rows (TestingAnalysis.classify_instance d p.1 p.2 c)
      simp only [List.foldl_cons, List.countP_cons]
      constructor
      · rw [ih.1, step.1]
        by_cases h : d ≤ p.1 <;> simp [h] <;> omega
      · rw [ih.2, step.2]
        by_cases h : p.1 < d <;> simp [h] <;> omega

/-- At threshold 0 the two special branches charge targets equal to 1 to
row 0 and targets equal to 0 to row 1, whatever the output. -/
theorem classify_rows_zero (t o : ℚ) (ht : t = 0 ∨ t = 1) (c : TestingAnalysis.Confusion) :
    ((TestingAnalysis.classify_instance 0 t o c).row0 =
        c.row0 + (if t = 1 then 1 else 0)) ∧
    ((TestingAnalysis.classify_instance 0 t o c).row1 =
        c.row1 + (if t = 0 then 1 else 0)) := by
  rcases ht with h | h <;> subst h <;>
    simp [TestingAnalysis.classify_instance, TestingAnalysis.Confusion.row0,
      TestingAnalysis.Confusion.row1] <;>
    norm_num <;> omega

/-- Folding the classification loop at threshold 0 over {0, 1}-valued
targets counts the ones in row 0 and the zeros in row 1. -/
theorem confusion_fold_zero :
    ∀ (rows : List (ℚ × ℚ)) (c : TestingAnalysis.Confusion),
      (∀ p ∈ rows, p.1 = 0 ∨ p.1 = 1) →
      ((rows.foldl (fun c p => TestingAnalysis.classify_instance 0 p.1 p.2 c) c).row0 =
          c.row0 + rows.countP (fun p => decide (p.1 = 1))) ∧
      ((rows.foldl (fun c p => TestingAnalysis.classify_instance 0 p.1 p.2 c) c).row1 =
          c.row1 + rows.countP (fun p => decide (p.1 = 0)))
  | [], c, _ => by simp
  | p :: rows, c, h => by
      have step := classify_rows_zero p.1 p.2 (h p (by simp)) c
      have ih := confusion_fold_zero rows (TestingAnalysis.classify_instance 0 p.1 p.2 c)
        (fun q hq => h q (List.mem_cons_of_mem _ hq))
      simp only [List.foldl_cons, List.countP_cons]
      constructor
      · rw [ih.1, step.1]
        by_cases hp : p.1 = 1 <;> simp [hp] <;> omega
      · rw [ih.2, step.2]
        by_cases hp : p.1 = 0 <;> simp [hp] <;> omega

/-- The positives/negatives rate is the pair of class counts at decision
threshold 0.5. -/
theorem positives_negatives_rate_eq (rows : List (ℚ × ℚ)) :
    TestingAnalysis.calculate_positives_negatives_rate rows =
      (rows.countP (fun p => decide ((1 : ℚ)/2 ≤ p.1)),
       rows.countP (fun p => decide (p.1 < (1 : ℚ)/2))) := by
  have h := confusion_fold_pos ((1 : ℚ)/2) (by norm_num) rows TestingAnalysis.Confusion.init
  unfold TestingAnalysis.calculate_positives_negatives_rate
    TestingAnalysis.calculate_confusion_binary_classification
  rw [Prod.mk.injEq]
  refine ⟨?_, ?_⟩
  · rw [h.1]; simp [TestingAnalysis.Confusion.init, TestingAnalysis.Confusion.row0]
  · rw [h.2]; simp [TestingAnalysis.Confusion.init, TestingAnalysis.Confusion.row1]

/-- Claim C1 — the statistics methods whose vectorized bodies are
commented out are unimplemented: `calculate_confusion_multiple_classification`
returns the uninitialised `columns × columns` tensor with no instance
counted, `calculate_roc_curve` returns the empty tensor whenever it does
not throw, and `calculate_testing_weighted_squared_error` returns 0 on
every input. -/
theorem unimplemented_statistics_stubs :
    (∀ targets outputs : List (List ℚ),
      TestingAnalysis.calculate_confusion_multiple_classification targets outputs =
        ⟨(targets.headD []).length, (targets.headD []).length⟩) ∧
    (∀ rows : List (ℚ × ℚ),
      TestingAnalysis.calculate_roc_curve rows =
          Except.error TestingAnalysis.roc_no_positives_msg ∨
      TestingAnalysis.calculate_roc_curve rows =
          Except.error TestingAnalysis.roc_no_negatives_msg ∨
      TestingAnalysis.calculate_roc_curve rows = Except.ok []) ∧
    (∀ targets outputs weights : List ℚ, ∀ target_distribution : List ℕ,
      TestingAnalysis.calculate_testing_weighted_squared_error
        targets outputs weights target_distribution = 0) := by
  refine ⟨fun t o => rfl, fun rows => ?_, fun t o w td => rfl⟩
  by_cases h1 : (TestingAnalysis.calculate_positives_negatives_rate rows).1 = 0
  · simp [TestingAnalysis.calculate_roc_curve, h1]
  · by_cases h2 : (TestingAnalysis.calculate_positives_negatives_rate rows).2 = 0 <;>
      simp [TestingAnalysis.calculate_roc_curve, h1, h2]

/-- Claim C2 (counterexample) — the confusion-matrix row sums do *not*
equal the class counts for every decision threshold: at threshold 2 the
single positive instance (target 1, output 0.5) is counted as a true
negative, so the first row sums to 0, not 1. -/
theorem confusion_rows_claim_false : ¬ confusion_rows_claim := by
  intro h
  have h1 := (h [((1 : ℚ), 1/2)] 2 (by norm_num)).1
  have h2 : (TestingAnalysis.calculate_confusion_binary_classification
      [((1 : ℚ), 1/2)] 2).row0 = 0 := by
    norm_num [TestingAnalysis.calculate_confusion_binary_classification,
      TestingAnalysis.classify_instance, TestingAnalysis.Confusion.init,
      TestingAnalysis.Confusion.row0]
  rw [h2] at h1
  norm_num [List.countP_cons] at h1

/-- Claim C2 (amended) — for targets in {0, 1} and any decision threshold
in [0, 1], the first confusion row (true positives + false negatives)
sums to the number of positive instances and the second row (false
positives + true negatives) to the number of negative instances. -/
theorem confusion_rows_sum_class_counts
    (rows : List (ℚ × ℚ)) (decision_threshold : ℚ)
    (h01 : ∀ p ∈ rows, p.1 = 0 ∨ p.1 = 1)
    (hd0 : 0 ≤ decision_threshold) (hd1 : decision_threshold ≤ 1) :
    ((TestingAnalysis.calculate_confusion_binary_classification rows decision_threshold).row0 =
        rows.countP (fun p => decide (p.1 = 1)) ∧
     (TestingAnalysis.calculate_confusion_binary_classification rows decision_threshold).row1 =
        rows.countP (fun p => decide (p.1 = 0))) := by
  unfold TestingAnalysis.calculate_confusion_binary_classification
  rcases eq_or_lt_of_le hd0 with hz | hpos
  · -- threshold 0: the two special branches charge targets 1 to row 0 and
    -- targets 0 to row 1
    subst hz
    have h := confusion_fold_zero rows TestingAnalysis.Confusion.init h01
    refine ⟨?_, ?_⟩
    · rw [h.1]; simp [TestingAnalysis.Confusion.init, TestingAnalysis.Confusion.row0]
    · rw [h.2]; simp [TestingAnalysis.Confusion.init, TestingAnalysis.Confusion.row1]
  · have h := confusion_fold_pos decision_threshold hpos rows TestingAnalysis.Confusion.init
    have hcount0 : rows.countP (fun p => decide (decision_threshold ≤ p.1)) =
        rows.countP (fun p => decide (p.1 = 1)) := by
      apply List.countP_congr
      intro q hq
      simp only [decide_eq_true_eq]
      rcases h01 q hq with h0 | h1
      · rw [h0]
        exact iff_of_false (fun hle => absurd hpos (not_lt.mpr hle)) (by norm_num)
      · rw [h1]
        exact ⟨fun _ => rfl, fun _ => hd1⟩
    have hcount1 : rows.countP (fun p => decide (p.1 < decision_threshold)) =
        rows.countP (fun p => decide (p.1 = 0)) := by
      apply List.countP_congr
      intro q hq
      simp only [decide_eq_true_eq]
      rcases h01 q hq with h0 | h1
      · rw [h0]
        exact iff_of_true hpos rfl
      · rw [h1]
        exact iff_of_false (fun hlt => absurd hd1 (not_le.mpr hlt)) (by norm_num)
    refine ⟨?_, ?_⟩
    · rw [h.1, hcount0]; simp [TestingAnalysis.Confusion.init, TestingAnalysis.Confusion.row0]
    · rw [h.2, hcount1]; simp [TestingAnalysis.Confusion.init, TestingAnalysis.Confusion.row1]

/-- Witness for the amended claim C2 at a concrete input. -/
theorem confusion_rows_sum_class_counts_witness :
    ((TestingAnalysis.calculate_confusion_binary_classification
        [((1 : ℚ), 7/10), ((0 : ℚ), 3/10), ((1 : ℚ), 1/5)] (1/2)).row0 =
      [((1 : ℚ), 7/10), ((0 : ℚ), 3/10), ((1 : ℚ), 1/5)].countP (fun p => decide (p.1 = 1)) ∧
     (TestingAnalysis.calculate_confusion_binary_classification
        [((1 : ℚ), 7/10), ((0 : ℚ), 3/10), ((1 : ℚ), 1/5)] (1/2)).row1 =
      [((1 : ℚ), 7/10), ((0 : ℚ), 3/10), ((1 : ℚ), 1/5)].countP (fun p => decide (p.1 = 0))) :=
  confusion_rows_sum_class_counts _ _ (by norm_num) (by norm_num) (by norm_num)

/-- Claim C8 — `calculate_roc_curve` and `calculate_area_under_curve`
throw exactly when the targets contain no positive or no negative
instance, counted at decision threshold 0.5. -/
theorem roc_and_auc_error_iff (rows : List (ℚ × ℚ)) :
    ((∃ msg, TestingAnalysis.calculate_roc_curve rows = Except.error msg) ↔
      (rows.countP (fun p => decide ((1 : ℚ)/2 ≤ p.1)) = 0 ∨
       rows.countP (fun p => decide (p.1 < (1 : ℚ)/2)) = 0)) ∧
    ((∃ msg, TestingAnalysis.calculate_area_under_curve rows = Except.error msg) ↔
      (rows.countP (fun p => decide ((1 : ℚ)/2 ≤ p.1)) = 0 ∨
       rows.countP (fun p => decide (p.1 < (1 : ℚ)/2)) = 0)) := by
  constructor
  · unfold TestingAnalysis.calculate_roc_curve
    rw [positives_negatives_rate_eq rows]
    by_cases h1 : rows.countP (fun p => decide ((1 : ℚ)/2 ≤ p.1)) = 0
    · simp only [h1]; simp
    · by_cases h2 : rows.countP (fun p => decide (p.1 < (1 : ℚ)/2)) = 0 <;>
        · simp only [h1, h2]; simp
  · unfold TestingAnalysis.calculate_area_under_curve
    rw [positives_negatives_rate_eq rows]
    by_cases h1 : rows.countP (fun p => decide ((1 : ℚ)/2 ≤ p.1)) = 0
    · simp only [h1]; simp
    · by_cases h2 : rows.countP (fun p => decide (p.1 < (1 : ℚ)/2)) = 0 <;>
        · simp only [h1, h2]; simp

/-- Claim C3 (counterexample) — `ModelSelection::check` does *not* throw
on every state whose data set lacks a training partition: on a fully
wired state with zero training instances and one selection instance it
returns normally. -/
theorem check_claim_false : ¬ ModelSelection.check_claim := by
  intro h
  obtain ⟨msg, hmsg⟩ := (h Unit Unit Unit Unit ModelSelection.no_training_state).2
    (Or.inr (Or.inr (Or.inr (Or.inr (Or.inr (Or.inl ⟨⟨0, 1⟩, rfl, rfl⟩))))))
  rw [show ModelSelection.check ModelSelection.no_training_state = Except.ok () from rfl]
    at hmsg
  exact Except.noConfusion hmsg

/-- Claim C3 (amended) — `check` throws an error identifying the offending
component if and only if the training strategy, loss index, neural
network, or data set is unbound, the neural network is empty, or the
data set lacks a *selection* partition (the training partition is not
checked); otherwise it returns normally.  The method is `const` in the
source, so it changes no component. -/
theorem check_error_iff {G P A I : Type} (s : ModelSelection.State G P A I) :
    (∃ msg, ModelSelection.check s = Except.error msg) ↔
      (s.training_strategy_pointer = none ∨
       ModelSelection.loss_index_of s = none ∨
       ModelSelection.neural_network_of s = none ∨
       (∃ nn, ModelSelection.neural_network_of s = some nn ∧ nn.is_empty = true) ∨
       ModelSelection.data_set_of s = none ∨
       (∃ ds, ModelSelection.data_set_of s = some ds ∧
          ds.selection_instances_number = 0)) := by
  rcases hts : s.training_strategy_pointer with _ | ts
  · simp [ModelSelection.check, hts, ModelSelection.loss_index_of,
      ModelSelection.neural_network_of, ModelSelection.data_set_of]
  · rcases hli : ts.loss_index_pointer with _ | li
    · simp [ModelSelection.check, hts, hli, ModelSelection.loss_index_of,
        ModelSelection.neural_network_of, ModelSelection.data_set_of]
    · rcases hnn : li.neural_network_pointer with _ | nn
      · simp [ModelSelection.check, hts, hli, hnn, ModelSelection.loss_index_of,
          ModelSelection.neural_network_of, ModelSelection.data_set_of]
      · by_cases hemp : nn.is_empty = true
        · simp [ModelSelection.check, hts, hli, hnn, hemp,
            ModelSelection.loss_index_of, ModelSelection.neural_network_of,
            ModelSelection.data_set_of]
        · rcases hds : li.data_set_pointer with _ | ds
          · simp [ModelSelection.check, hts, hli, hnn, hemp, hds,
              ModelSelection.loss_index_of, ModelSelection.neural_network_of,
              ModelSelection.data_set_of]
          · by_cases hsel : ds.selection_instances_number = 0 <;>
              simp [ModelSelection.check, hts, hli, hnn, hemp, hds, hsel,
                ModelSelection.loss_index_of, ModelSelection.neural_network_of,
                ModelSelection.data_set_of]

/-- Claim C9 — `set_inputs_selection_method(GROWING_INPUTS)` overwrites
the incremental-neurons pointer with a freshly allocated,
default-configured IncrementalNeurons while leaving
`neurons_selection_method` untouched, whereas the NO_INPUTS_SELECTION,
PRUNING_INPUTS and GENETIC_ALGORITHM cases leave the neurons-selection
state entirely unchanged. -/
theorem growing_inputs_clobbers_neurons {G P A I : Type}
    (gio : ModelSelection.AlgoXML G) (pio : ModelSelection.AlgoXML P)
    (aio : ModelSelection.AlgoXML A) (iio : ModelSelection.AlgoXML I)
    (s : ModelSelection.State G P A I) (h : ModelSelection.alloc_wf s = true) :
    ((ModelSelection.set_inputs_selection_method gio pio aio iio s
        .GROWING_INPUTS).neurons_selection_method = s.neurons_selection_method ∧
     (ModelSelection.set_inputs_selection_method gio pio aio iio s
        .GROWING_INPUTS).incremental_neurons_pointer =
          some (s.next_alloc + 1, iio.dflt) ∧
     (ModelSelection.set_inputs_selection_method gio pio aio iio s
        .GROWING_INPUTS).incremental_neurons_pointer ≠
          s.incremental_neurons_pointer) ∧
    ((ModelSelection.set_inputs_selection_method gio pio aio iio s
        .NO_INPUTS_SELECTION).incremental_neurons_pointer =
          s.incremental_neurons_pointer ∧
     (ModelSelection.set_inputs_selection_method gio pio aio iio s
        .NO_INPUTS_SELECTION).neurons_selection_method =
          s.neurons_selection_method) ∧
    ((ModelSelection.set_inputs_selection_method gio pio aio iio s
        .PRUNING_INPUTS).incremental_neurons_pointer =
          s.incremental_neurons_pointer ∧
     (ModelSelection.set_inputs_selection_method gio pio aio iio s
        .PRUNING_INPUTS).neurons_selection_method =
          s.neurons_selection_method) ∧
    ((ModelSelection.set_inputs_selection_method gio pio aio iio s
        .GENETIC_ALGORITHM).incremental_neurons_pointer =
          s.incremental_neurons_pointer ∧
     (ModelSelection.set_inputs_selection_method gio pio aio iio s
        .GENETIC_ALGORITHM).neurons_selection_method =
          s.neurons_selection_method) := by
  refine ⟨⟨rfl, rfl, ?_⟩, ⟨rfl, rfl⟩, ⟨rfl, rfl⟩, ⟨rfl, rfl⟩⟩
  have hl : (ModelSelection.set_inputs_selection_method gio pio aio iio s
      .GROWING_INPUTS).incremental_neurons_pointer =
        some (s.next_alloc + 1, iio.dflt) := rfl
  rw [hl]
  rcases hip : s.incremental_neurons_pointer with _ | p
  · exact fun heq => Option.noConfusion heq
  · intro heq
    have hk : p.1 < s.next_alloc := by
      simp [ModelSelection.alloc_wf, hip] at h
      exact h.2
    have hfst : s.next_alloc + 1 = p.1 := congrArg Prod.fst (Option.some.inj heq)
    omega

/-- Witness for claim C9 at a concrete state with a live
incremental-neurons pointer. -/
theorem growing_inputs_clobbers_neurons_witness :
    ModelSelection.alloc_wf ModelSelection.incremental_active_state = true ∧
    (ModelSelection.set_inputs_selection_method ModelSelection.unit_algo
        ModelSelection.unit_algo ModelSelection.unit_algo ModelSelection.unit_algo
        ModelSelection.incremental_active_state
        .GROWING_INPUTS).incremental_neurons_pointer ≠
      ModelSelection.incremental_active_state.incremental_neurons_pointer :=
  ⟨rfl,
   (growing_inputs_clobbers_neurons ModelSelection.unit_algo ModelSelection.unit_algo
      ModelSelection.unit_algo ModelSelection.unit_algo
      ModelSelection.incremental_active_state rfl).1.2.2⟩

/-- Claim C7 — the `ModelSelection` XML round trip: serializing any
well-formed state with `to_XML` produces a document rooted at
`ModelSelection`, and reloading it with `from_XML` (into any starting
state) restores the inputs-selection method, the neurons-selection
method, and the nested configuration of the active selection algorithms
exactly. -/
theorem model_selection_xml_round_trip {G P A I : Type}
    (gio : ModelSelection.AlgoXML G) (pio : ModelSelection.AlgoXML P)
    (aio : ModelSelection.AlgoXML A) (iio : ModelSelection.AlgoXML I)
    (s s₀ : ModelSelection.State G P A I) (h : ModelSelection.xml_wf s = true) :
    ∃ doc, ModelSelection.to_XML gio pio aio iio s = some doc ∧
      doc.tag = "ModelSelection" ∧
      ∃ s', ModelSelection.from_XML gio pio aio iio [doc] s₀ = Except.ok s' ∧
        s'.inputs_selection_method = s.inputs_selection_method ∧
        s'.neurons_selection_method = s.neurons_selection_method ∧
        ModelSelection.active_inputs_config s' = ModelSelection.active_inputs_config s ∧
        ModelSelection.active_neurons_config s' = ModelSelection.active_neurons_config s := by
  obtain ⟨ts, im, nm, gp, pp, ap, ip, na⟩ := s
  cases im <;> cases nm <;>
    simp only [ModelSelection.xml_wf, Bool.and_eq_true] at h
  · exact ⟨_, rfl, rfl, _, rfl, rfl, rfl, rfl, rfl⟩
  · obtain ⟨q, hq⟩ := Option.isSome_iff_exists.mp h.2
    subst hq
    refine ⟨_, rfl, rfl, _, rfl, rfl, rfl, rfl, ?_⟩
    simp only [XML.children, iio.dec_enc] <;> rfl
  · obtain ⟨p, hp⟩ := Option.isSome_iff_exists.mp h.1
    subst hp
    refine ⟨_, rfl, rfl, _, rfl, rfl, rfl, ?_, rfl⟩
    simp only [XML.children, gio.dec_enc] <;> rfl
  · obtain ⟨p, hp⟩ := Option.isSome_iff_exists.mp h.1
    obtain ⟨q, hq⟩ := Option.isSome_iff_exists.mp h.2
    subst hp hq
    refine ⟨_, rfl, rfl, _, rfl, rfl, rfl, ?_, ?_⟩
    · simp only [XML.children, gio.dec_enc] <;> rfl
    · simp only [XML.children, iio.dec_enc] <;> rfl
  · obtain ⟨p, hp⟩ := Option.isSome_iff_exists.mp h.1
    subst hp
    refine ⟨_, rfl, rfl, _, rfl, rfl, rfl, ?_, rfl⟩
    simp only [XML.children, pio.dec_enc] <;> rfl
  · obtain ⟨p, hp⟩ := Option.isSome_iff_exists.mp h.1
    obtain ⟨q, hq⟩ := Option.isSome_iff_exists.mp h.2
    subst hp hq
    refine ⟨_, rfl, rfl, _, rfl, rfl, rfl, ?_, ?_⟩
    · simp only [XML.children, pio.dec_enc] <;> rfl
    · simp only [XML.children, iio.dec_enc] <;> rfl
  · obtain ⟨p, hp⟩ := Option.isSome_iff_exists.mp h.1
    subst hp
    refine ⟨_, rfl, rfl, _, rfl, rfl, rfl, ?_, rfl⟩
    simp only [XML.children, aio.dec_enc] <;> rfl
  · obtain ⟨p, hp⟩ := Option.isSome_iff_exists.mp h.1
    obtain ⟨q, hq⟩ := Option.isSome_iff_exists.mp h.2
    subst hp hq
    refine ⟨_, rfl, rfl, _, rfl, rfl, rfl, ?_, ?_⟩
    · simp only [XML.children, aio.dec_enc] <;> rfl
    · simp only [XML.children, iio.dec_enc] <;> rfl

/-- Witness for claim C7 at a concrete state with growing-inputs and
incremental-neurons selection active. -/
theorem model_selection_xml_round_trip_witness :
    ModelSelection.xml_wf ModelSelection.growing_active_state = true ∧
    ∃ doc, ModelSelection.to_XML ModelSelection.unit_algo ModelSelection.unit_algo
        ModelSelection.unit_algo ModelSelection.unit_algo
        ModelSelection.growing_active_state = some doc ∧
      doc.tag = "ModelSelection" ∧
      ∃ s', ModelSelection.from_XML ModelSelection.unit_algo ModelSelection.unit_algo
          ModelSelection.unit_algo ModelSelection.unit_algo [doc]
          ModelSelection.growing_active_state = Except.ok s' ∧
        s'.inputs_selection_method =
          ModelSelection.growing_active_state.inputs_selection_method ∧
        s'.neurons_selection_method =
          ModelSelection.growing_active_state.neurons_selection_method ∧
        ModelSelection.active_inputs_config s' =
          ModelSelection.active_inputs_config ModelSelection.growing_active_state ∧
        ModelSelection.active_neurons_config s' =
          ModelSelection.active_neurons_config ModelSelection.growing_active_state :=
  ⟨rfl,
   model_selection_xml_round_trip ModelSelection.unit_algo ModelSelection.unit_algo
     ModelSelection.unit_algo ModelSelection.unit_algo
     ModelSelection.growing_active_state ModelSelection.growing_active_state rfl⟩

/-- Claim C10 — a default-constructed `Device` reports type
`EigenThreadPool` while its thread-pool device is still null; `set_type`
is what allocates the pool (with `omp_get_max_threads()` threads), so
the invariant "type is EigenThreadPool implies the thread-pool device is
non-null" holds after any `set_type` call but not after default
construction. -/
theorem device_default_type_without_pool :
    (Device.default_constructed.type = DeviceType.EigenThreadPool ∧
     Device.default_constructed.thread_pool_device = none) ∧
    (∀ (d : Device) (n : ℕ),
      (d.set_type n DeviceType.EigenThreadPool).thread_pool_device = some n) ∧
    (∀ (d : Device) (n : ℕ) (t : DeviceType),
      (d.set_type n t).type = DeviceType.EigenThreadPool →
        (d.set_type n t).thread_pool_device ≠ none) := by
  refine ⟨⟨rfl, rfl⟩, fun d n => rfl, fun d n t ht => ?_⟩
  cases t
  · exact absurd ht (by simp [Device.set_type])
  · simp [Device.set_type]

/-- A well-formed layer's packed block has exactly its parameter count. -/
theorem layer_params_length (l : Layer) (h : l.wf = true) :
    l.get_parameters.length = l.get_parameters_number := by
  cases l <;>
    simp_all [Layer.wf, Layer.get_parameters, Layer.get_parameters_number,
      Bool.and_eq_true, beq_iff_eq]

/-- Unpacking a layer's own packed block reproduces the layer. -/
theorem layer_set_get (l : Layer) (h : l.wf = true) :
    l.set_parameters l.get_parameters = l := by
  cases l with
  | perceptron i n w b =>
      simp only [Layer.wf, Bool.and_eq_true, beq_iff_eq] at h
      simp only [Layer.set_parameters, Layer.get_parameters,
        List.take_left' h.1, List.drop_left' h.1]
      rw [← h.2, List.take_length]
  | probabilistic i n w b =>
      simp only [Layer.wf, Bool.and_eq_true, beq_iff_eq] at h
      simp only [Layer.set_parameters, Layer.get_parameters,
        List.take_left' h.1, List.drop_left' h.1]
      rw [← h.2, List.take_length]
  | long_short_term_memory i n ps =>
      simp [Layer.set_parameters, Layer.get_parameters, List.take_length]
  | scaling n => rfl
  | unscaling n => rfl
  | bounding n => rfl

/-- Packing after unpacking a block of the right length reproduces the
block. -/
theorem layer_get_set (l : Layer) (h : l.wf = true) (v : List ℚ)
    (hv : v.length = l.get_parameters_number) :
    (l.set_parameters v).get_parameters = v := by
  cases l with
  | perceptron i n w b =>
      simp only [Layer.get_parameters_number] at hv
      have hd : (v.drop (i * n)).length = n := by
        rw [List.length_drop, hv]; omega
      simp only [Layer.set_parameters, Layer.get_parameters]
      rw [List.take_of_length_le (le_of_eq hd), List.take_append_drop]
  | probabilistic i n w b =>
      simp only [Layer.get_parameters_number] at hv
      have hd : (v.drop (i * n)).length = n := by
        rw [List.length_drop, hv]; omega
      simp only [Layer.set_parameters, Layer.get_parameters]
      rw [List.take_of_length_le (le_of_eq hd), List.take_append_drop]
  | long_short_term_memory i n ps =>
      simp only [Layer.get_parameters_number] at hv
      simp only [Layer.set_parameters, Layer.get_parameters]
      rw [← hv, List.take_length]
  | scaling n =>
      simp only [Layer.get_parameters_number] at hv
      simp [Layer.set_parameters, Layer.get_parameters,
        (List.length_eq_zero.mp hv).symm]
  | unscaling n =>
      simp only [Layer.get_parameters_number] at hv
      simp [Layer.set_parameters, Layer.get_parameters,
        (List.length_eq_zero.mp hv).symm]
  | bounding n =>
      simp only [Layer.get_parameters_number] at hv
      simp [Layer.set_parameters, Layer.get_parameters,
        (List.length_eq_zero.mp hv).symm]

/-- Unpacking does not change a layer's kind, hence not its trainability. -/
theorem layer_set_preserves_trainable (l : Layer) (v : List ℚ) :
    (l.set_parameters v).is_trainable = l.is_trainable := by
  cases l <;> rfl

/-- Unpacking does not change a layer's parameter count. -/
theorem layer_set_preserves_count (l : Layer) (v : List ℚ)
    (hv : v.length = l.get_parameters_number) :
    (l.set_parameters v).get_parameters_number = l.get_parameters_number := by
  cases l with
  | long_short_term_memory i n ps =>
      simp only [Layer.get_parameters_number] at hv
      simp [Layer.set_parameters, Layer.get_parameters_number, List.length_take, hv]
  | _ => rfl

/-- The flat vector is the concatenation of the trainable layers' packed
blocks, in layer order. -/
theorem params_of_layers_join (ls : List Layer) :
    params_of_layers ls =
      ((ls.filter Layer.is_trainable).map Layer.get_parameters).join := by
  induction ls with
  | nil => rfl
  | cons l ls ih =>
      cases hl : l.is_trainable <;>
        simp [params_of_layers, List.filter_cons, hl, ih]

/-- The flat vector of a well-formed layer list has length equal to the
sum of the trainable layers' parameter counts. -/
theorem params_of_layers_length (ls : List Layer) (h : ∀ l ∈ ls, l.wf = true) :
    (params_of_layers ls).length =
      ((ls.filter Layer.is_trainable).map Layer.get_parameters_number).sum := by
  induction ls with
  | nil => rfl
  | cons l ls ih =>
      have hl := h l (by simp)
      have ihl := ih (fun q hq => h q (List.mem_cons_of_mem _ hq))
      cases ht : l.is_trainable <;>
        simp [params_of_layers, List.filter_cons, ht, ihl, layer_params_length l hl]

/-- Unpacking the packed flat vector reproduces the layer list. -/
theorem set_get_params_of_layers (ls : List Layer) (h : ∀ l ∈ ls, l.wf = true) :
    set_params_of_layers ls (params_of_layers ls) = ls := by
  induction ls with
  | nil => rfl
  | cons l ls ih =>
      have hl := h l (by simp)
      have ihl := ih (fun q hq => h q (List.mem_cons_of_mem _ hq))
      have hlen : l.get_parameters.length = l.get_parameters_number :=
        layer_params_length l hl
      cases ht : l.is_trainable
      · simp [params_of_layers, set_params_of_layers, ht, ihl]
      · simp only [params_of_layers, set_params_of_layers, ht, if_true]
        rw [List.take_left' hlen, List.drop_left' hlen, layer_set_get l hl, ihl]

/-- Packing after unpacking a flat vector of the right length reproduces
the vector. -/
theorem get_set_params_of_layers (ls : List Layer) (h : ∀ l ∈ ls, l.wf = true) :
    ∀ v : List ℚ,
      v.length = ((ls.filter Layer.is_trainable).map Layer.get_parameters_number).sum →
      params_of_layers (set_params_of_layers ls v) = v := by
  induction ls with
  | nil =>
      intro v hv
      simp at hv
      simp [set_params_of_layers, params_of_layers, hv]
  | cons l ls ih =>
      intro v hv
      have hl := h l (by simp)
      have ihl := ih (fun q hq => h q (List.mem_cons_of_mem _ hq))
      cases ht : l.is_trainable
      · simp only [List.filter_cons, ht, if_false] at hv
        simp only [set_params_of_layers, ht, if_false, Bool.false_eq_true,
          params_of_layers]
        rw [ihl v hv]
        simp [ht]
      · simp only [List.filter_cons, ht, if_true, List.map_cons, List.sum_cons] at hv
        have htake : (v.take l.get_parameters_number).length = l.get_parameters_number := by
          rw [List.length_take, hv]
          exact Nat.min_eq_left (Nat.le_add_right _ _)
        have hdrop : (v.drop l.get_parameters_number).length =
            ((ls.filter Layer.is_trainable).map Layer.get_parameters_number).sum := by
          rw [List.length_drop, hv]; omega
        simp only [set_params_of_layers, ht, if_true, params_of_layers,
          layer_set_preserves_trainable]
        rw [layer_get_set l hl _ htake, ihl _ hdrop, List.take_append_drop]

/-- Claim C4 — `get_parameters` is the concatenation of the trainable
layers' parameter blocks in layer order, its length is the sum of their
parameter counts; in particular the Approximation network over [1,1,1]
has exactly 4 parameters and over [1,2,1] exactly 7. -/
theorem flat_parameters_concatenation (nn : NeuralNetwork) (h : nn.wf = true) :
    nn.get_parameters.length = nn.get_parameters_number ∧
    nn.get_parameters = (nn.get_trainable_layers.map Layer.get_parameters).join ∧
    (NeuralNetwork.from_model_type .Approximation [1, 1, 1]).get_parameters_number = 4 ∧
    (NeuralNetwork.from_model_type .Approximation [1, 2, 1]).get_parameters_number = 7 := by
  rw [NeuralNetwork.wf, List.all_eq_true] at h
  exact ⟨params_of_layers_length nn.layers h, params_of_layers_join nn.layers,
    rfl, rfl⟩

/-- Witness for claim C4 on the Approximation network over [1,2,1]. -/
theorem flat_parameters_concatenation_witness :
    (NeuralNetwork.from_model_type .Approximation [1, 2, 1]).wf = true ∧
    (NeuralNetwork.from_model_type .Approximation [1, 2, 1]).get_parameters.length =
      (NeuralNetwork.from_model_type .Approximation [1, 2, 1]).get_parameters_number :=
  ⟨rfl, (flat_parameters_concatenation (NeuralNetwork.from_model_type
    .Approximation [1, 2, 1]) rfl).1⟩

/-- Claim C5 — the parameter round trip is exact in both directions:
`set_parameters (get_parameters ())` leaves every layer identical, and
`get_parameters` after `set_parameters v` returns `v` for any flat
vector of the right length. -/
theorem parameter_round_trip (nn : NeuralNetwork) (v : List ℚ) (h : nn.wf = true)
    (hv : v.length = nn.get_parameters_number) :
    nn.set_parameters nn.get_parameters = nn ∧
    (nn.set_parameters v).get_parameters = v := by
  rw [NeuralNetwork.wf, List.all_eq_true] at h
  constructor
  · show NeuralNetwork.mk (set_params_of_layers nn.layers (params_of_layers nn.layers)) = nn
    rw [set_get_params_of_layers nn.layers h]
  · exact get_set_params_of_layers nn.layers h v hv

/-- Witness for claim C5 on the Approximation network over [1,2,1] and a
concrete 7-scalar vector. -/
theorem parameter_round_trip_witness :
    (NeuralNetwork.from_model_type .Approximation [1, 2, 1]).wf = true ∧
    ([(1 : ℚ), 2, 3, 4, 5, 6, 7] : List ℚ).length =
      (NeuralNetwork.from_model_type .Approximation [1, 2, 1]).get_parameters_number ∧
    (NeuralNetwork.from_model_type .Approximation [1, 2, 1]).set_parameters
        (NeuralNetwork.from_model_type .Approximation [1, 2, 1]).get_parameters =
      NeuralNetwork.from_model_type .Approximation [1, 2, 1] ∧
    ((NeuralNetwork.from_model_type .Approximation [1, 2, 1]).set_parameters
        [(1 : ℚ), 2, 3, 4, 5, 6, 7]).get_parameters = [(1 : ℚ), 2, 3, 4, 5, 6, 7] :=
  ⟨rfl, rfl,
   (parameter_round_trip (NeuralNetwork.from_model_type .Approximation [1, 2, 1])
      [(1 : ℚ), 2, 3, 4, 5, 6, 7] rfl rfl).1,
   (parameter_round_trip (NeuralNetwork.from_model_type .Approximation [1, 2, 1])
      [(1 : ℚ), 2, 3, 4, 5, 6, 7] rfl rfl).2⟩

/-- Claim C6 — for every three-entry architecture the convenience
constructor yields exactly Scaling, Perceptron, Probabilistic for
Classification and exactly Scaling, Perceptron, Perceptron, Unscaling,
Bounding for Approximation, with the Scaling layer at position 0 the
only one. -/
theorem model_type_constructor_stacks (n h m : ℕ) :
    ((NeuralNetwork.from_model_type .Classification [n, h, m]).layers.map
        Layer.get_type = [.Scaling, .Perceptron, .Probabilistic]) ∧
    ((NeuralNetwork.from_model_type .Approximation [n, h, m]).layers.map
        Layer.get_type = [.Scaling, .Perceptron, .Perceptron, .Unscaling, .Bounding]) ∧
    (((NeuralNetwork.from_model_type .Classification [n, h, m]).layers.map
        Layer.get_type).count LayerType.Scaling = 1) ∧
    (((NeuralNetwork.from_model_type .Approximation [n, h, m]).layers.map
        Layer.get_type).count LayerType.Scaling = 1) :=
  ⟨rfl, rfl, rfl, rfl⟩

/-- Witness for claim C10: setting the type on a default-constructed
device makes the thread-pool device non-null. -/
theorem device_default_type_without_pool_witness :
    (Device.default_constructed.set_type 8 DeviceType.EigenThreadPool).type =
        DeviceType.EigenThreadPool ∧
    (Device.default_constructed.set_type 8 DeviceType.EigenThreadPool).thread_pool_device ≠
        none :=
  ⟨rfl,
   device_default_type_without_pool.2.2 Device.default_constructed 8
     DeviceType.EigenThreadPool rfl⟩

end OpenNN
